import Mathlib

/-!
Verification of the chaoschain-sdk-ts payment, storage and network-config
conventions against their natural-language specification.

The TypeScript source is shallowly embedded: pure functions become Lean
functions, JS `number` values feeding integer arithmetic are modelled as
rationals, JS `bigint` as `Int`, thrown exceptions as `Option`/`Except`
error values, and the external blockchain / signature primitives
(token transfers, keccak, ECDSA sign/recover) as explicit parameters.
-/

namespace ChaosChain

/-- Result record of `X402PaymentManager.calculateTotalCost` (src/X402Payment.ts). -/
structure TotalCost where
  amount : String
  fee : String
  total : String
deriving DecidableEq, Repr

/-- Digits of a decimal string chunk to a natural number. -/
def digitsToNat (l : List Char) : Nat :=
  l.foldl (fun a c => a * 10 + (c.toNat - 48)) 0

/-- Model of `ethers.parseUnits value decimals`: a decimal string to integer
minor units at `d` decimals.  `none` models a thrown exception (non-numeric
string, several dots, no digits, or more fractional digits than `d`). -/
def parseUnitsChars (neg : Bool) (body : List Char) (d : Nat) : Option Int :=
  let build : List Char → List Char → Option Int := fun w f =>
    if w.all Char.isDigit && f.all Char.isDigit &&
        decide (0 < w.length + f.length) && decide (f.length ≤ d) then
      let v : Nat := digitsToNat w * 10 ^ d + digitsToNat f * 10 ^ (d - f.length)
      some (if neg then -(v : Int) else (v : Int))
    else
      none
  match body.splitOn '.' with
  | [w] => build w []
  | [w, f] => build w f
  | _ => none

def parseUnits (s : String) (d : Nat) : Option Int :=
  match s.data with
  | '-' :: rest => parseUnitsChars true rest d
  | l => parseUnitsChars false l d

/-- Fractional digits of `ethers.formatUnits`: pad to `d` digits, then strip
trailing zeros but keep at least one digit. -/
def fracDigits (frac : Nat) (d : Nat) : List Char :=
  let padded := List.replicate (d - (Nat.repr frac).length) '0' ++ (Nat.repr frac).data
  let trimmed := (padded.reverse.dropWhile (fun c => c = '0')).reverse
  if trimmed.isEmpty then ['0'] else trimmed

/-- `ethers.formatUnits` on a nonnegative value. -/
def formatUnitsNat (n : Nat) (d : Nat) : String :=
  Nat.repr (n / 10 ^ d) ++ "." ++ String.mk (fracDigits (n % 10 ^ d) d)

/-- Model of `ethers.formatUnits value decimals`: integer minor units to the
decimal string ethers produces (trailing zeros trimmed, one digit kept). -/
def formatUnits (v : Int) (d : Nat) : String :=
  if v < 0 then "-" ++ formatUnitsNat (-v).toNat d else formatUnitsNat v.toNat d

/-- State of the slim `X402PaymentManager` (src/X402Payment.ts): constructor
arguments plus the constructor defaults for treasury and fee percentage.
`signerAddress` models the address of the `ethers.Signer` handed in. -/
structure X402ManagerState where
  signerAddress : String
  network : String
  treasuryAddress : String := "0x742d35Cc6634C0532925a3b844Bc9e7595f0bEb1"
  feePercentage : ℚ := 2.5
deriving DecidableEq, Repr

/-- The `X402PaymentManager` constructor with its default arguments. -/
def mkX402PaymentManager (signerAddress network : String) : X402ManagerState :=
  { signerAddress := signerAddress, network := network }

/-- Shallow embedding of `X402PaymentManager.calculateTotalCost`
(src/X402Payment.ts).  The fee percentage (a JS number) is modelled as a
rational; `Math.floor (feePercentage * 100)` is the integer floor;
JS `bigint` division truncates toward zero (`Int.tdiv`).  `none` models the
exception thrown by `ethers.parseUnits` on an unparseable amount. -/
def calculateTotalCost (feePercentage : ℚ) (amount : String)
    (currency : String) : Option TotalCost :=
  let decimals := if currency = "ETH" then 18 else 6
  match parseUnits amount decimals with
  | none => none
  | some amountBigInt =>
    let feeAmount := (amountBigInt * (⌊feePercentage * 100⌋ : Int)).tdiv 10000
    let totalAmount := amountBigInt + feeAmount
    some { amount := formatUnits amountBigInt decimals,
           fee := formatUnits feeAmount decimals,
           total := formatUnits totalAmount decimals }

/-- `calculateTotalCost` as the method of a manager state. -/
def X402ManagerState.calculateTotalCost (m : X402ManagerState)
    (amount : String) (currency : String) : Option TotalCost :=
  ChaosChain.calculateTotalCost m.feePercentage amount currency

/-- `paymentRequired` object of the HTTP 402 body built by
`X402PaymentManager.createPaymentRequirements`. -/
structure PaymentRequired where
  protocol : String
  version : String
  amount : String
  currency : String
  recipient : String
  description : String
  network : String
  methods : List String
deriving DecidableEq, Repr

/-- Body of the HTTP 402 response. -/
structure PaymentRequirementsBody where
  error : String
  paymentRequired : PaymentRequired
deriving DecidableEq, Repr

/-- The full `{statusCode, headers, body}` record returned by
`createPaymentRequirements`. -/
structure PaymentRequirementsResponse where
  statusCode : Nat
  headers : List (String × String)
  body : PaymentRequirementsBody
deriving DecidableEq, Repr

/-- JS `a || b` for an optional string: `undefined` and the empty string are
falsy and select the default. -/
def jsOrElse (o : Option String) (dflt : String) : String :=
  match o with
  | none => dflt
  | some s => if s = "" then dflt else s

/-- Shallow embedding of `X402PaymentManager.createPaymentRequirements`
(src/X402Payment.ts).  The source stores the unawaited promise of
`signer.getAddress()` in `recipient`; we model the signer address value. -/
def createPaymentRequirements (m : X402ManagerState) (amount : String)
    (currency : String := "USDC") (description : Option String := none) :
    PaymentRequirementsResponse :=
  { statusCode := 402,
    headers := [("Content-Type", "application/json"),
                ("X-Payment-Required", "x402")],
    body :=
      { error := "Payment Required",
        paymentRequired :=
          { protocol := "x402",
            version := "1.0",
            amount := amount,
            currency := currency,
            recipient := m.signerAddress,
            description := jsOrElse description "Payment required for service",
            network := m.network,
            methods := ["crypto"] } } }

/-- Shallow embedding of `X402PaymentManager.setFeePercentage`
(src/X402Payment.ts): the thrown validation error becomes `.error`. -/
def setFeePercentage (m : X402ManagerState) (percentage : ℚ) :
    Except String X402ManagerState :=
  if percentage < 0 ∨ percentage > 100 then
    .error "Fee percentage must be between 0 and 100"
  else
    .ok { m with feePercentage := percentage }

/-- Shallow embedding of `X402PaymentManager.getFeePercentage`. -/
def getFeePercentage (m : X402ManagerState) : ℚ :=
  m.feePercentage

/-- Contract address triple of `src/utils/networks.ts`. -/
structure ContractAddresses where
  identity : String
  reputation : String
  validation : String
deriving DecidableEq, Repr

/-- `nativeCurrency` record of `NetworkInfo`. -/
structure NativeCurrency where
  name : String
  symbol : String
  decimals : Nat
deriving DecidableEq, Repr

/-- `NetworkInfo` record of `src/utils/networks.ts`. -/
structure NetworkInfo where
  chainId : Nat
  name : String
  rpcUrl : String
  contracts : ContractAddresses
  nativeCurrency : NativeCurrency
deriving DecidableEq, Repr

/-- `ERC8004_ADDRESSES` table of `src/utils/networks.ts`. -/
def ERC8004_ADDRESSES : List (String × ContractAddresses) :=
  [("ethereum-sepolia",
    { identity := "0x8004a6090Cd10A7288092483047B097295Fb8847",
      reputation := "0x8004B8FD1A363aa02fDC07635C0c5F94f6Af5B7E",
      validation := "0x8004CB39f29c09145F24Ad9dDe2A108C1A2cdfC5" }),
   ("base-sepolia",
    { identity := "0x8004AA63c570c570eBF15376c0dB199918BFe9Fb",
      reputation := "0x8004bd8daB57f14Ed299135749a5CB5c42d341BF",
      validation := "0x8004C269D0A5647E51E121FeB226200ECE932d55" }),
   ("linea-sepolia",
    { identity := "0x8004aa7C931bCE1233973a0C6A667f73F66282e7",
      reputation := "0x8004bd8483b99310df121c46ED8858616b2Bba02",
      validation := "0x8004c44d1EFdd699B2A26e781eF7F77c56A9a4EB" }),
   ("hedera-testnet",
    { identity := "0x4c74ebd72921d537159ed2053f46c12a7d8e5923",
      reputation := "0xc565edcba77e3abeade40bfd6cf6bf583b3293e0",
      validation := "0x18df085d85c586e9241e0cd121ca422f571c2da6" }),
   ("0g-testnet",
    { identity := "0x80043ed9cf33a3472768dcd53175bb44e03a1e4a",
      reputation := "0x80045d7b72c47bf5ff73737b780cb1a5ba8ee202",
      validation := "0x80041728e0aadf1d1427f9be18d52b7f3afefafb" })]

/-- `ERC8004_ADDRESSES[key]` indexing (every key used in the source is
present, so the fallback record is never reached there). -/
def erc8004AddressesAt (key : String) : ContractAddresses :=
  (ERC8004_ADDRESSES.lookup key).getD { identity := "", reputation := "", validation := "" }

/-- Process environment, supplying optional RPC-URL overrides. -/
def Env : Type := String → Option String

/-- `NETWORK_INFO` table of `src/utils/networks.ts`.  Each `rpcUrl` is the
environment override when set, else the hard-coded default. -/
def NETWORK_INFO (env : Env) : List (String × NetworkInfo) :=
  [("ethereum-sepolia",
    { chainId := 11155111,
      name := "Ethereum Sepolia Testnet",
      rpcUrl := (env "ETHEREUM_SEPOLIA_RPC_URL").getD "https://rpc.sepolia.org",
      contracts := erc8004AddressesAt "ethereum-sepolia",
      nativeCurrency := { name := "Sepolia ETH", symbol := "ETH", decimals := 18 } }),
   ("base-sepolia",
    { chainId := 84532,
      name := "Base Sepolia Testnet",
      rpcUrl := (env "BASE_SEPOLIA_RPC_URL").getD "https://sepolia.base.org",
      contracts := erc8004AddressesAt "base-sepolia",
      nativeCurrency := { name := "Sepolia ETH", symbol := "ETH", decimals := 18 } }),
   ("linea-sepolia",
    { chainId := 59141,
      name := "Linea Sepolia Testnet",
      rpcUrl := (env "LINEA_SEPOLIA_RPC_URL").getD "https://rpc.sepolia.linea.build",
      contracts := erc8004AddressesAt "linea-sepolia",
      nativeCurrency := { name := "Linea ETH", symbol := "ETH", decimals := 18 } }),
   ("hedera-testnet",
    { chainId := 296,
      name := "Hedera Testnet",
      rpcUrl := (env "HEDERA_TESTNET_RPC_URL").getD "https://testnet.hashio.io/api",
      contracts := erc8004AddressesAt "hedera-testnet",
      nativeCurrency := { name := "HBAR", symbol := "HBAR", decimals := 18 } }),
   ("0g-testnet",
    { chainId := 16600,
      name := "0G Network Testnet",
      rpcUrl := (env "ZEROG_TESTNET_RPC_URL").getD "https://evmrpc-testnet.0g.ai",
      contracts := erc8004AddressesAt "0g-testnet",
      nativeCurrency := { name := "A0GI", symbol := "A0GI", decimals := 18 } }),
   ("local",
    { chainId := 31337,
      name := "Local Network",
      rpcUrl := (env "LOCAL_RPC_URL").getD "http://localhost:8545",
      contracts := { identity := "0x5FbDB2315678afecb367f032d93F642f64180aa3",
                     reputation := "0xe7f1725E7734CE288F8367e1Bb143E90bb3F0512",
                     validation := "0x9fE46736679d2D9a65F0992F2272dE9f3c7fa6e0" },
      nativeCurrency := { name := "ETH", symbol := "ETH", decimals := 18 } })]

/-- Shallow embedding of `getNetworkInfo` (src/utils/networks.ts): the thrown
`Unsupported network` error becomes `.error`. -/
def getNetworkInfo (env : Env) (network : String) : Except String NetworkInfo :=
  match (NETWORK_INFO env).lookup network with
  | none => .error ("Unsupported network: " ++ network)
  | some info => .ok info

/-- Shallow embedding of `getSupportedNetworks` (src/utils/networks.ts). -/
def getSupportedNetworks (env : Env) : List String :=
  (NETWORK_INFO env).map Prod.fst

/-- The external ethers crypto primitives used by the receipt scheme,
abstracted over the signer key type: keccak hashing, EIP-191 message
signing, and signer recovery.  `verifyMessage` returning `none` models
`ethers.verifyMessage` throwing (malformed or empty signature). -/
structure EthCrypto (Key : Type) where
  keccak256 : String → String
  signMessage : Key → String → String
  verifyMessage : String → String → Option String
  addressOf : Key → String

/-- The `X402Payment` record returned by `executePayment`
(src/types.ts / src/X402Payment.ts). -/
structure X402Payment where
  from_ : String
  to_ : String
  amount : String
  currency : String
  txHash : String
  timestamp : Int
  feeAmount : String := ""
  feeTxHash : Option String := none
deriving DecidableEq, Repr

/-- The `PaymentReceipt` record (src/types.ts): the receipt-data fields plus
`paymentId` and `signature`. -/
structure PaymentReceipt where
  paymentId : String
  from_ : String
  to_ : String
  amount : String
  currency : String
  timestamp : Int
  txHash : String
  signature : String
deriving DecidableEq, Repr

/-- Hex digit character (lower case), for JSON control-character escapes. -/
def hexDigitChar (n : Nat) : Char :=
  if n < 10 then Char.ofNat (48 + n) else Char.ofNat (87 + n)

/-- JSON escape of one character, as `JSON.stringify` produces it. -/
def jsonEscapeChar (c : Char) : String :=
  if c = '"' then "\\\""
  else if c = '\\' then "\\\\"
  else if c = '\n' then "\\n"
  else if c = '\r' then "\\r"
  else if c = '\t' then "\\t"
  else if c = '\x08' then "\\b"
  else if c = '\x0c' then "\\f"
  else if c.toNat < 32 then
    "\\u00" ++ String.mk [hexDigitChar (c.toNat / 16), hexDigitChar (c.toNat % 16)]
  else
    String.mk [c]

/-- A JSON string literal for `s`. -/
def jsonStringLit (s : String) : String :=
  "\"" ++ String.join (s.data.map jsonEscapeChar) ++ "\""

/-- `JSON.stringify` of the `receiptData` object built inside
`createReceipt` (field insertion order from, to, amount, currency,
timestamp, txHash). -/
def receiptDataJson (p : X402Payment) : String :=
  "\x7b\"from\":" ++ jsonStringLit p.from_ ++
  ",\"to\":" ++ jsonStringLit p.to_ ++
  ",\"amount\":" ++ jsonStringLit p.amount ++
  ",\"currency\":" ++ jsonStringLit p.currency ++
  ",\"timestamp\":" ++ toString p.timestamp ++
  ",\"txHash\":" ++ jsonStringLit p.txHash ++ "\x7d"

/-- The fixed-format text message signed and verified for a receipt.  Note
that `timestamp` (and `signature`) are not interpolated into it. -/
def receiptMessage (r : PaymentReceipt) : String :=
  "Payment Receipt\nID: " ++ r.paymentId ++
  "\nFrom: " ++ r.from_ ++
  "\nTo: " ++ r.to_ ++
  "\nAmount: " ++ r.amount ++ " " ++ r.currency ++
  "\nTx: " ++ r.txHash

/-- Shallow embedding of `X402PaymentManager.createReceipt`
(src/X402Payment.ts): deterministic `paymentId` as keccak over the
canonical JSON of the receipt data, signature left empty. -/
def createReceipt {Key : Type} (crypto : EthCrypto Key)
    (payment : X402Payment) : PaymentReceipt :=
  { paymentId := crypto.keccak256 (receiptDataJson payment),
    from_ := payment.from_,
    to_ := payment.to_,
    amount := payment.amount,
    currency := payment.currency,
    timestamp := payment.timestamp,
    txHash := payment.txHash,
    signature := "" }

/-- Shallow embedding of `X402PaymentManager.signReceipt`: the manager's
signer signs the reconstructed fixed-format message. -/
def signReceipt {Key : Type} (crypto : EthCrypto Key) (key : Key)
    (receipt : PaymentReceipt) : PaymentReceipt :=
  { receipt with signature := crypto.signMessage key (receiptMessage receipt) }

/-- JS `String.prototype.toLowerCase` on the ASCII addresses compared by
`verifyReceipt`. -/
def jsToLowerCase (s : String) : String :=
  String.mk (s.data.map Char.toLower)

/-- Shallow embedding of `X402PaymentManager.verifyReceipt`: recover the
signer over the reconstructed message and compare case-insensitively to the
claimed `from`; any recovery exception (`none`) yields `false`. -/
def verifyReceipt {Key : Type} (crypto : EthCrypto Key)
    (receipt : PaymentReceipt) : Bool :=
  match crypto.verifyMessage (receiptMessage receipt) receipt.signature with
  | none => false
  | some recoveredAddress =>
    jsToLowerCase recoveredAddress == jsToLowerCase receipt.from_

/-- A two-key instantiation of the crypto primitives used to exercise the
receipt theorems on concrete inputs: key `false` has address `0xAAAA`,
key `true` has address `0xBBBB`, and a signature is the signed message
tagged with the key. -/
def toyCrypto : EthCrypto Bool :=
  { keccak256 := fun s => "0xhash:" ++ s,
    signMessage := fun k m => (if k then "B:" else "A:") ++ m,
    verifyMessage := fun m s =>
      if s = "A:" ++ m then some "0xAAAA"
      else if s = "B:" ++ m then some "0xBBBB"
      else none,
    addressOf := fun k => if k then "0xBBBB" else "0xAAAA" }

/-- `USDC_ADDRESSES` table of `src/utils/contracts.ts`. -/
def USDC_ADDRESSES : List (String × String) :=
  [("ethereum-sepolia", "0x1c7D4B196Cb0C7B01d743Fbc6116a902379C7238"),
   ("base-sepolia", "0x036CbD53842c5426634e7929541eC2318f3dCF7e"),
   ("optimism-sepolia", "0x5fd84259d66Cd46123540766Be93DFE6D43130D7"),
   ("linea-sepolia", "0x0000000000000000000000000000000000000000"),
   ("hedera-testnet", "0x0000000000000000000000000000000000000000"),
   ("0g-testnet", "0x0000000000000000000000000000000000000000"),
   ("local", "0x0000000000000000000000000000000000000000")]

/-- Shallow embedding of `getUSDCAddress` (src/utils/contracts.ts). -/
def getUSDCAddress (network : String) : String :=
  (USDC_ADDRESSES.lookup network).getD "0x0000000000000000000000000000000000000000"

/-- `X402PaymentParams` of `src/types.ts` (fields used by `executePayment`;
`serviceType`/`metadata` do not influence the embedded behaviour). -/
structure X402PaymentParams where
  toAgent : String
  amount : String
  currency : String := "USDC"
deriving DecidableEq, Repr

/-- One attempted on-chain transfer: recipient and value in minor units. -/
abbrev Transfer := String × Int

/-- Outcome oracle for the external `sendETH`/`sendUSDC` transfer calls
(`signer.sendTransaction` / `usdcContract.transfer` + `wait`): for a
recipient and value, either the confirmed transaction hash or the thrown
error. -/
def SendOracle : Type := String → Int → Except String String

/-- The two sequential transfer legs of `executePayment`: main leg to the
recipient, then (when the fee is positive) the fee leg to the treasury.
Returns the result together with the list of transfers actually submitted,
in submission order. -/
def executeLegs (send : SendOracle) (treasury toAgent : String)
    (netAmount feeAmount : Int) : Except String (String × Option String) × List Transfer :=
  match send toAgent netAmount with
  | .error e => (.error e, [(toAgent, netAmount)])
  | .ok mainTxHash =>
    if feeAmount > 0 then
      match send treasury feeAmount with
      | .error e => (.error e, [(toAgent, netAmount), (treasury, feeAmount)])
      | .ok feeTxHash =>
        (.ok (mainTxHash, some feeTxHash), [(toAgent, netAmount), (treasury, feeAmount)])
    else
      (.ok (mainTxHash, none), [(toAgent, netAmount)])

/-- Shallow embedding of `X402PaymentManager.executePayment`
(src/X402Payment.ts), instrumented with the list of transfers submitted.
Amount parsing, fee split (`floor (feePercentage * 100)` basis points,
`bigint` truncated division), the unsupported-currency and missing-USDC
errors, and the sequential main-then-fee legs follow the source; `now`
stands for `Date.now()`.  A `.error` result models the promise rejecting:
no catch exists in the source, so a failed leg propagates. -/
def executePayment (send : SendOracle) (m : X402ManagerState)
    (params : X402PaymentParams) (now : Int) :
    Except String X402Payment × List Transfer :=
  let decimals := if params.currency = "ETH" then 18 else 6
  match parseUnits params.amount decimals with
  | none => (.error "invalid decimal amount", [])
  | some amountBigInt =>
    let feeAmount := (amountBigInt * (⌊m.feePercentage * 100⌋ : Int)).tdiv 10000
    let netAmount := amountBigInt - feeAmount
    let finish : Except String (String × Option String) × List Transfer →
        Except String X402Payment × List Transfer := fun res =>
      match res with
      | (.error e, log) => (.error e, log)
      | (.ok (mainTxHash, feeTxHash), log) =>
        (.ok { from_ := m.signerAddress,
               to_ := params.toAgent,
               amount := params.amount,
               currency := params.currency,
               txHash := mainTxHash,
               timestamp := now,
               feeAmount := formatUnits feeAmount decimals,
               feeTxHash := feeTxHash }, log)
    if params.currency = "ETH" then
      finish (executeLegs send m.treasuryAddress params.toAgent netAmount feeAmount)
    else if params.currency = "USDC" then
      if getUSDCAddress m.network = "0x0000000000000000000000000000000000000000" then
        (.error ("USDC not available on network: " ++ m.network), [])
      else
        finish (executeLegs send m.treasuryAddress params.toAgent netAmount feeAmount)
    else
      (.error ("Unsupported currency: " ++ params.currency), [])

/-- `StorageResult` record of `src/StorageBackends.ts`. -/
structure StorageResult where
  cid : String
  url : Option String := none
  provider : String
deriving DecidableEq, Repr

instance {ε α : Type} [DecidableEq ε] [DecidableEq α] :
    DecidableEq (Except ε α) := fun a b =>
  match a, b with
  | .ok x, .ok y =>
    if h : x = y then .isTrue (by rw [h]) else .isFalse (by simp [h])
  | .error x, .error y =>
    if h : x = y then .isTrue (by rw [h]) else .isFalse (by simp [h])
  | .ok _, .error _ => .isFalse (by simp)
  | .error _, .ok _ => .isFalse (by simp)

/-- A configured storage backend: an identity (JS object identity, used by
the `backend !== this.preferredBackend` test) and the outcome of its
`put` call, `.error` modelling a rejected upload. -/
structure Backend where
  id : Nat
  putResult : Except String StorageResult
deriving DecidableEq, Repr

/-- State of `AutoStorageManager`: constructor-detected backends in list
order, and the preferred backend when any was detected. -/
structure AutoStorageManager where
  backends : List Backend
  preferredBackend : Option Backend
deriving DecidableEq, Repr

/-- The fallback walk of `AutoStorageManager.put`: try every backend other
than the preferred one in list order; when all fail, raise the terminal
storage error wrapping the preferred backend's error. -/
def putWalk (pref : Backend) (e : String) :
    List Backend → Except String StorageResult
  | [] => .error ("All storage backends failed: " ++ e)
  | b :: rest =>
    if b.id = pref.id then putWalk pref e rest
    else
      match b.putResult with
      | .ok r => .ok r
      | .error _ => putWalk pref e rest

/-- Shallow embedding of `AutoStorageManager.put` (src/StorageBackends.ts):
no backend configured raises; otherwise the preferred backend is tried
first and, on failure, the remaining backends in list order. -/
def AutoStorageManager.put (m : AutoStorageManager) : Except String StorageResult :=
  match m.preferredBackend with
  | none => .error "No storage backends available"
  | some pref =>
    match pref.putResult with
    | .ok r => .ok r
    | .error e => putWalk pref e m.backends

/-- `FeedbackParams` of `src/types.ts` (fields used by the rating
validation and the contract call; the JS `number` rating is a rational). -/
structure FeedbackParams where
  agentId : Nat
  rating : ℚ
  feedbackUri : String

/-- Outcome oracle for the external reputation-registry contract call
(`reputationContract.giveFeedback` + `wait`): either the confirmed
transaction hash or the thrown error. -/
def FeedbackCall : Type := Nat → ℚ → String → Except String String

/-- Shallow embedding of `ChaosAgent.giveFeedback` (src/ChaosAgent.ts),
instrumented with the number of contract calls issued: the rating is
validated before the on-chain `giveFeedback` transaction is attempted. -/
def giveFeedback (call : FeedbackCall) (params : FeedbackParams) :
    Except String String × Nat :=
  if params.rating < 0 ∨ params.rating > 100 then
    (.error "Rating must be between 0 and 100", 0)
  else
    match call params.agentId params.rating params.feedbackUri with
    | .error e => (.error e, 1)
    | .ok txHash => (.ok txHash, 1)

/-- `feedbackData` of the ERC-8004 v1.0 `giveFeedback` variant
(src/StorageBackends.ts appended ChaosAgent copy). -/
structure FeedbackData where
  tag1 : Option String := none
  tag2 : Option String := none
  content : Option String := none
  feedbackAuth : Option String := none

/-- Argument tuple of the v1.0 on-chain `giveFeedback` call. -/
structure GiveFeedbackArgs where
  agentId : Nat
  score : ℚ
  tag1 : String
  tag2 : String
  feedbackUri : String
  feedbackHash : String
  feedbackAuth : String

/-- `ethers.ZeroHash`. -/
def ZeroHash : String :=
  "0x0000000000000000000000000000000000000000000000000000000000000000"

/-- Shallow embedding of the ERC-8004 v1.0 `ChaosAgent.giveFeedback`
(appended copy in src/StorageBackends.ts), instrumented with the number of
contract calls issued; `keccak` abstracts `ethers.keccak256 ∘ toUtf8Bytes`. -/
def giveFeedbackV1 (keccak : String → String)
    (call : GiveFeedbackArgs → Except String String)
    (params : FeedbackParams) (feedbackData : Option FeedbackData) :
    Except String String × Nat :=
  if params.rating < 0 ∨ params.rating > 100 then
    (.error "Rating must be between 0 and 100", 0)
  else
    let fd := feedbackData.getD {}
    let feedbackContent := jsOrElse fd.content params.feedbackUri
    let args : GiveFeedbackArgs :=
      { agentId := params.agentId,
        score := params.rating,
        tag1 := jsOrElse fd.tag1 ZeroHash,
        tag2 := jsOrElse fd.tag2 ZeroHash,
        feedbackUri := params.feedbackUri,
        feedbackHash := keccak feedbackContent,
        feedbackAuth := jsOrElse fd.feedbackAuth "0x" }
    match call args with
    | .error e => (.error e, 1)
    | .ok txHash => (.ok txHash, 1)

/-- `Except.isOk` as a Bool, for decidable backend-failure hypotheses. -/
def exceptIsOk {ε α : Type} : Except ε α → Bool
  | .ok _ => true
  | .error _ => false

/-- The `/^0x/` test on an address string. -/
def startsWith0x (s : String) : Bool :=
  match s.data with
  | '0' :: 'x' :: _ => true
  | _ => false

/-- A sample payment record signed by the `toyCrypto` key `false`
(address `0xAAAA`). -/
def samplePayment : X402Payment :=
  { from_ := "0xAAAA",
    to_ := "0xRecipient",
    amount := "10.0",
    currency := "USDC",
    txHash := "0xabc123",
    timestamp := 1700000000000 }

/-- `samplePayment`'s receipt, signed with the matching key. -/
def sampleSignedReceipt : PaymentReceipt :=
  signReceipt toyCrypto false (createReceipt toyCrypto samplePayment)

/-- `sampleSignedReceipt` with the `amount` field altered after signing. -/
def alteredAmountReceipt : PaymentReceipt :=
  { sampleSignedReceipt with amount := "99.0" }

/-- `sampleSignedReceipt` with the `timestamp` field altered after signing. -/
def alteredTimestampReceipt : PaymentReceipt :=
  { sampleSignedReceipt with timestamp := 1700000000001 }

/-- A receipt whose signature is the empty string (`ethers.verifyMessage`
throws on it, modelled by `toyCrypto.verifyMessage` returning `none`). -/
def emptySignatureReceipt : PaymentReceipt :=
  createReceipt toyCrypto samplePayment

/-- A transfer oracle where the main leg to the recipient confirms and the
fee leg to the x402 treasury fails. -/
def sendFailFee : SendOracle := fun to_ _value =>
  if to_ = "0x742d35Cc6634C0532925a3b844Bc9e7595f0bEb1" then
    .error "fee transfer failed"
  else
    .ok "0xmainhash"

/-- Sample storage backends: preferred local IPFS fails, the first fallback
fails, the second fallback succeeds. -/
def ipfsBackend : Backend := { id := 0, putResult := .error "ipfs down" }

def pinataBackend : Backend := { id := 1, putResult := .error "pinata down" }

def irysBackend : Backend :=
  { id := 2,
    putResult := .ok { cid := "Qm123", url := some "ipfs://Qm123", provider := "irys" } }

/-- A storage manager with the three sample backends, local IPFS preferred. -/
def sampleStorageManager : AutoStorageManager :=
  { backends := [ipfsBackend, pinataBackend, irysBackend],
    preferredBackend := some ipfsBackend }

end ChaosChain

namespace ChaosChain

/-!
Theorems.  Claim theorems are named `claim_Cn...`; the remaining lemmas are
shared infrastructure.
-/

/-- C6: after initialization for `base-sepolia` (default fee percentage 2.5,
6-decimal USDC), `calculateTotalCost "10.0" "USDC"` returns exactly
`{amount := "10.0", fee := "0.25", total := "10.25"}`. -/
theorem claim_C6_calculateTotalCost_ten_usdc :
    (mkX402PaymentManager "0xf39Fd6e51aad88F6F4ce6aB8827279cffFb92266"
        "base-sepolia").calculateTotalCost "10.0" "USDC"
      = some { amount := "10.0", fee := "0.25", total := "10.25" } := by
  with_unfolding_all decide

/-- C4: for every manager state, amount, currency and description,
`createPaymentRequirements` returns status code 402, header
`X-Payment-Required: x402`, and the fixed body shape
`{error, paymentRequired: {protocol := "x402", …, methods := ["crypto"]}}`
with `paymentRequired.amount`/`currency` echoing the inputs. -/
theorem claim_C4_createPaymentRequirements_shape (m : X402ManagerState)
    (amount currency : String) (description : Option String) :
    (createPaymentRequirements m amount currency description).statusCode = 402
    ∧ (createPaymentRequirements m amount currency description).headers.lookup
        "X-Payment-Required" = some "x402"
    ∧ (createPaymentRequirements m amount currency description).body.error
        = "Payment Required"
    ∧ (createPaymentRequirements m amount currency description).body.paymentRequired.protocol
        = "x402"
    ∧ (createPaymentRequirements m amount currency description).body.paymentRequired.amount
        = amount
    ∧ (createPaymentRequirements m amount currency description).body.paymentRequired.currency
        = currency
    ∧ (createPaymentRequirements m amount currency description).body.paymentRequired.methods
        = ["crypto"] := by
  refine ⟨rfl, ?_, rfl, rfl, rfl, rfl, rfl⟩
  rfl

/-- C8: `setFeePercentage` rejects exactly the percentages outside `[0, 100]`
with the validation error, and an accepted percentage is returned by the
subsequent `getFeePercentage`. -/
theorem claim_C8_setFeePercentage_validation (m : X402ManagerState) (p : ℚ) :
    ((p < 0 ∨ 100 < p) →
      setFeePercentage m p = .error "Fee percentage must be between 0 and 100")
    ∧ (0 ≤ p → p ≤ 100 →
      ∃ m', setFeePercentage m p = .ok m' ∧ getFeePercentage m' = p) := by
  constructor
  · intro h
    have h' : p < 0 ∨ p > 100 := h
    simp only [setFeePercentage, if_pos h']
  · intro h0 h1
    have h' : ¬(p < 0 ∨ p > 100) := by
      rw [not_or]
      exact ⟨not_lt.mpr h0, not_lt.mpr h1⟩
    exact ⟨{ m with feePercentage := p },
           by simp only [setFeePercentage, if_neg h'], rfl⟩

/-- Witness for C8 at fee percentages 150 (rejected) and 5 (accepted). -/
theorem claim_C8_witness :
    (setFeePercentage (mkX402PaymentManager "0xSigner" "base-sepolia") 150
      = .error "Fee percentage must be between 0 and 100")
    ∧ ∃ m', setFeePercentage (mkX402PaymentManager "0xSigner" "base-sepolia") 5
        = .ok m' ∧ getFeePercentage m' = 5 := by
  exact ⟨(claim_C8_setFeePercentage_validation _ 150).1 (by norm_num),
         (claim_C8_setFeePercentage_validation _ 5).2 (by norm_num) (by norm_num)⟩

/-- C10: both `giveFeedback` implementations throw
`Rating must be between 0 and 100` without issuing any contract call when
the rating lies outside `[0, 100]`, and issue exactly one on-chain
`giveFeedback` call when it lies within. -/
theorem claim_C10_giveFeedback_rating_validation (call : FeedbackCall)
    (keccak : String → String) (callV1 : GiveFeedbackArgs → Except String String)
    (params : FeedbackParams) (fd : Option FeedbackData) :
    ((params.rating < 0 ∨ 100 < params.rating) →
      giveFeedback call params = (.error "Rating must be between 0 and 100", 0)
      ∧ giveFeedbackV1 keccak callV1 params fd
          = (.error "Rating must be between 0 and 100", 0))
    ∧ (0 ≤ params.rating → params.rating ≤ 100 →
      (giveFeedback call params).2 = 1
      ∧ (giveFeedbackV1 keccak callV1 params fd).2 = 1) := by
  constructor
  · intro h
    have h' : params.rating < 0 ∨ params.rating > 100 := h
    exact ⟨by simp only [giveFeedback, if_pos h'],
           by simp only [giveFeedbackV1, if_pos h']⟩
  · intro h0 h1
    have h' : ¬(params.rating < 0 ∨ params.rating > 100) := by
      rw [not_or]
      exact ⟨not_lt.mpr h0, not_lt.mpr h1⟩
    constructor
    · simp only [giveFeedback, if_neg h']
      cases call params.agentId params.rating params.feedbackUri <;> rfl
    · simp only [giveFeedbackV1, if_neg h']
      cases callV1 _ <;> rfl

/-- Witness for C10 at ratings 150 (rejected before any call) and 50
(one contract call issued). -/
theorem claim_C10_witness :
    (giveFeedback (fun _ _ _ => .ok "0xtx")
        { agentId := 1, rating := 150, feedbackUri := "ipfs://feedback" }
      = (.error "Rating must be between 0 and 100", 0)
      ∧ giveFeedbackV1 (fun s => s) (fun _ => .ok "0xtx")
          { agentId := 1, rating := 150, feedbackUri := "ipfs://feedback" } none
        = (.error "Rating must be between 0 and 100", 0))
    ∧ ((giveFeedback (fun _ _ _ => .ok "0xtx")
        { agentId := 1, rating := 50, feedbackUri := "ipfs://feedback" }).2 = 1
      ∧ (giveFeedbackV1 (fun s => s) (fun _ => .ok "0xtx")
          { agentId := 1, rating := 50, feedbackUri := "ipfs://feedback" } none).2 = 1) := by
  exact ⟨(claim_C10_giveFeedback_rating_validation _ _ _ _ _).1 (by norm_num),
         (claim_C10_giveFeedback_rating_validation _ _ _ _ _).2 (by norm_num) (by norm_num)⟩

/-- C9: `verifyReceipt` on any receipt degrades every recovery failure
(`ethers.verifyMessage` throwing, e.g. on a malformed or empty signature)
to `false`, and returns `true` exactly when the address recovered from the
signature over the reconstructed message equals the receipt's `from`
case-insensitively. -/
theorem claim_C9_verifyReceipt_total {Key : Type} (crypto : EthCrypto Key)
    (r : PaymentReceipt) :
    (crypto.verifyMessage (receiptMessage r) r.signature = none →
      verifyReceipt crypto r = false)
    ∧ (verifyReceipt crypto r = true ↔
      ∃ a, crypto.verifyMessage (receiptMessage r) r.signature = some a
        ∧ jsToLowerCase a = jsToLowerCase r.from_) := by
  unfold verifyReceipt
  rcases h : crypto.verifyMessage (receiptMessage r) r.signature with _ | a
  · simp
  · simp [beq_iff_eq]

/-- Witness for C9: a receipt carrying an empty signature verifies to
`false` instead of raising. -/
theorem claim_C9_witness :
    verifyReceipt toyCrypto emptySignatureReceipt = false := by
  exact (claim_C9_verifyReceipt_total toyCrypto emptySignatureReceipt).1
    (by with_unfolding_all decide)

/-- A key absent from the key column of an association list has no
`List.lookup` entry. -/
theorem lookup_eq_none_of_not_mem_keys {α β : Type} [BEq α] [LawfulBEq α]
    (l : List (α × β)) (a : α) (h : a ∉ l.map Prod.fst) : l.lookup a = none := by
  induction l with
  | nil => rfl
  | cons kv t ih =>
    obtain ⟨k, v⟩ := kv
    simp only [List.map_cons, List.mem_cons, not_or] at h
    obtain ⟨h1, h2⟩ := h
    simp only [List.lookup, beq_eq_false_iff_ne.mpr h1]
    exact ih h2

/-- C7: for every environment, `getNetworkInfo` succeeds on each supported
network name with an info record whose `chainId` is positive and whose
identity contract address matches `/^0x/`, and throws
`Unsupported network: <name>` (a message containing the offending name) on
every other name. -/
theorem claim_C7_getNetworkInfo_total (env : Env) (network : String) :
    (network ∈ getSupportedNetworks env →
      ∃ info, getNetworkInfo env network = .ok info
        ∧ 0 < info.chainId
        ∧ startsWith0x info.contracts.identity = true)
    ∧ (network ∉ getSupportedNetworks env →
      getNetworkInfo env network = .error ("Unsupported network: " ++ network)
      ∧ ∃ pre, "Unsupported network: " ++ network = pre ++ network) := by
  constructor
  · intro h
    simp only [getSupportedNetworks, NETWORK_INFO, List.map_cons, List.map_nil,
      List.mem_cons, List.not_mem_nil, or_false] at h
    rcases h with rfl | rfl | rfl | rfl | rfl | rfl | rfl <;>
      exact ⟨_, rfl, by norm_num, rfl⟩
  · intro h
    refine ⟨?_, "Unsupported network: ", rfl⟩
    have hnone : (NETWORK_INFO env).lookup network = none :=
      lookup_eq_none_of_not_mem_keys _ _ h
    simp only [getNetworkInfo, hnone]

/-- Witness for C7 with no environment overrides: `base-sepolia` resolves,
`bogus-net` throws with the name in the message. -/
theorem claim_C7_witness :
    (∃ info, getNetworkInfo (fun _ => none) "base-sepolia" = .ok info
      ∧ 0 < info.chainId ∧ startsWith0x info.contracts.identity = true)
    ∧ (getNetworkInfo (fun _ => none) "bogus-net"
        = .error ("Unsupported network: " ++ "bogus-net")
      ∧ ∃ pre, "Unsupported network: " ++ "bogus-net" = pre ++ "bogus-net") := by
  exact ⟨(claim_C7_getNetworkInfo_total (fun _ => none) "base-sepolia").1 (by decide),
         (claim_C7_getNetworkInfo_total (fun _ => none) "bogus-net").2 (by decide)⟩

/-- The fallback walk raises the terminal error when every non-preferred
backend fails. -/
theorem putWalk_all_fail (pref : Backend) (e : String) (l : List Backend)
    (h : ∀ b ∈ l, b.id = pref.id ∨ exceptIsOk b.putResult = false) :
    putWalk pref e l = .error ("All storage backends failed: " ++ e) := by
  induction l with
  | nil => rfl
  | cons b t ih =>
    have hrest : ∀ b' ∈ t, b'.id = pref.id ∨ exceptIsOk b'.putResult = false :=
      fun b' hb' => h b' (List.mem_cons_of_mem _ hb')
    by_cases hid : b.id = pref.id
    · simp only [putWalk, if_pos hid]
      exact ih hrest
    · rcases h b (List.mem_cons_self _ _) with hid' | hfail
      · exact absurd hid' hid
      · simp only [putWalk, if_neg hid]
        rcases hres : b.putResult with e' | r
        · exact ih hrest
        · rw [hres] at hfail
          exact absurd hfail (by simp [exceptIsOk])

/-- The fallback walk returns the first non-preferred success in list
order. -/
theorem putWalk_first_success (pref : Backend) (e : String)
    (l1 l2 : List Backend) (b : Backend) (r : StorageResult)
    (h1 : ∀ b' ∈ l1, b'.id = pref.id ∨ exceptIsOk b'.putResult = false)
    (h2 : b.id ≠ pref.id) (h3 : b.putResult = .ok r) :
    putWalk pref e (l1 ++ b :: l2) = .ok r := by
  induction l1 with
  | nil =>
    simp only [List.nil_append, putWalk, if_neg h2, h3]
  | cons b' t ih =>
    have hrest : ∀ b'' ∈ t, b''.id = pref.id ∨ exceptIsOk b''.putResult = false :=
      fun b'' hb'' => h1 b'' (List.mem_cons_of_mem _ hb'')
    by_cases hid : b'.id = pref.id
    · simp only [List.cons_append, putWalk, if_pos hid]
      exact ih hrest
    · rcases h1 b' (List.mem_cons_self _ _) with hid' | hfail
      · exact absurd hid' hid
      · simp only [List.cons_append, putWalk, if_neg hid]
        rcases hres : b'.putResult with e' | r'
        · exact ih hrest
        · rw [hres] at hfail
          exact absurd hfail (by simp [exceptIsOk])

/-- C5: when the preferred backend's upload fails, `AutoStorageManager.put`
retries the remaining configured backends in list order (skipping the
preferred one), returns the first success without raising, and raises the
terminal storage error exactly when every backend fails. -/
theorem claim_C5_put_fallback (m : AutoStorageManager) (pref : Backend)
    (e : String) (hpref : m.preferredBackend = some pref)
    (hfail : pref.putResult = .error e) :
    (∀ l1 b l2 r, m.backends = l1 ++ b :: l2 →
      (∀ b' ∈ l1, b'.id = pref.id ∨ exceptIsOk b'.putResult = false) →
      b.id ≠ pref.id → b.putResult = .ok r →
      m.put = .ok r)
    ∧ ((∀ b ∈ m.backends, b.id = pref.id ∨ exceptIsOk b.putResult = false) →
      m.put = .error ("All storage backends failed: " ++ e)) := by
  have hput : m.put = putWalk pref e m.backends := by
    simp only [AutoStorageManager.put, hpref, hfail]
  constructor
  · intro l1 b l2 r hsplit hfails hid hok
    rw [hput, hsplit]
    exact putWalk_first_success pref e l1 l2 b r hfails hid hok
  · intro hall
    rw [hput]
    exact putWalk_all_fail pref e m.backends hall

/-- Witness for C5 on `sampleStorageManager`: preferred IPFS fails, the
Pinata fallback fails, Irys succeeds and its result is returned. -/
theorem claim_C5_witness :
    sampleStorageManager.put
      = .ok { cid := "Qm123", url := some "ipfs://Qm123", provider := "irys" } := by
  exact (claim_C5_put_fallback sampleStorageManager ipfsBackend "ipfs down"
      rfl rfl).1
    [ipfsBackend, pinataBackend] irysBackend [] _ rfl (by decide) (by decide) rfl

/-- C3 as stated is false: with the main leg to the recipient confirmed
(`0xmainhash`) and the fee leg to the treasury failing, `executePayment`
rejects with the fee-leg error instead of returning a successful payment
result referencing the main leg.  The transfer log shows the main leg was
already submitted and confirmed before the fee leg was attempted. -/
theorem claim_C3_counterexample :
    sendFailFee "0xRecipient" 9750000 = .ok "0xmainhash"
    ∧ sendFailFee "0x742d35Cc6634C0532925a3b844Bc9e7595f0bEb1" 250000
        = .error "fee transfer failed"
    ∧ executePayment sendFailFee (mkX402PaymentManager "0xSigner" "base-sepolia")
        { toAgent := "0xRecipient", amount := "10.0" } 1700000000000
      = (.error "fee transfer failed",
         [("0xRecipient", 9750000),
          ("0x742d35Cc6634C0532925a3b844Bc9e7595f0bEb1", 250000)]) := by
  refine ⟨by decide, by decide, by with_unfolding_all decide⟩

/-- C3 amended: in two-leg settlement, when the main leg succeeds and the
fee leg (for a positive fee) fails, `executePayment` propagates the fee-leg
error to the caller — the caller receives an error, not a successful
result — while the transfer log records that the main-leg transfer had
already been submitted (no rollback, no atomicity). -/
theorem claim_C3_amended (send : SendOracle) (m : X402ManagerState)
    (params : X402PaymentParams) (now : Int) (a : Int) (mainHash e : String)
    (hcur : params.currency = "ETH"
      ∨ (params.currency = "USDC"
        ∧ getUSDCAddress m.network ≠ "0x0000000000000000000000000000000000000000"))
    (hparse : parseUnits params.amount
        (if params.currency = "ETH" then 18 else 6) = some a)
    (hfee : 0 < (a * ⌊m.feePercentage * 100⌋).tdiv 10000)
    (hmain : send params.toAgent (a - (a * ⌊m.feePercentage * 100⌋).tdiv 10000)
        = .ok mainHash)
    (hfeefail : send m.treasuryAddress ((a * ⌊m.feePercentage * 100⌋).tdiv 10000)
        = .error e) :
    executePayment send m params now
      = (.error e,
         [(params.toAgent, a - (a * ⌊m.feePercentage * 100⌋).tdiv 10000),
          (m.treasuryAddress, (a * ⌊m.feePercentage * 100⌋).tdiv 10000)]) := by
  rcases hcur with hETH | ⟨hUSDC, husdc⟩
  · rw [hETH, if_pos rfl] at hparse
    simp only [executePayment, executeLegs, hETH, eq_self_iff_true, ite_true,
      hparse, hmain, if_pos hfee, hfeefail]
  · have hne : ¬(("USDC" : String) = "ETH") := by decide
    rw [hUSDC, if_neg hne] at hparse
    simp only [executePayment, executeLegs, hUSDC, if_neg hne, if_neg husdc,
      eq_self_iff_true, ite_true, hparse, hmain, if_pos hfee, hfeefail]

/-- Witness for the amended C3 on a 20-USDC payment: the main-leg transfer
of 19.5 USDC is submitted and confirmed, the 0.5-USDC fee leg fails, and
the call returns the fee-leg error with both submissions logged. -/
theorem claim_C3_witness :
    executePayment sendFailFee (mkX402PaymentManager "0xSigner" "base-sepolia")
        { toAgent := "0xBob", amount := "20.0" } 1710000000000
      = (.error "fee transfer failed",
         [("0xBob", 19500000),
          ("0x742d35Cc6634C0532925a3b844Bc9e7595f0bEb1", 500000)]) := by
  have h := claim_C3_amended sendFailFee
    (mkX402PaymentManager "0xSigner" "base-sepolia")
    { toAgent := "0xBob", amount := "20.0" } 1710000000000 20000000
    "0xmainhash" "fee transfer failed"
    (.inr ⟨rfl, by decide⟩)
    (by decide)
    (by with_unfolding_all decide)
    (by with_unfolding_all decide)
    (by with_unfolding_all decide)
  rw [h]
  with_unfolding_all decide

/-- C1 as stated is false: at fee percentage 0.125 (inside `[0, 100]`, and
exactly representable so `Math.floor (0.125 * 100) = 12` also under binary
floating point) on amount `"10.0"` USDC, the code returns fee `"0.012"`,
while `amount × percentage / 100 = 0.0125` USDC is exactly representable at
the currency's 6 decimals and would print as `"0.0125"`: the code first
truncates the percentage to whole basis points. -/
theorem claim_C1_counterexample :
    ((0 : ℚ) ≤ 0.125 ∧ (0.125 : ℚ) ≤ 100)
    ∧ calculateTotalCost (0.125 : ℚ) "10.0" "USDC"
        = some { amount := "10.0", fee := "0.012", total := "10.012" }
    ∧ parseUnits "10.0" 6 = some 10000000
    ∧ (10000000 : ℚ) * 0.125 / 100 = ((12500 : Int) : ℚ)
    ∧ formatUnits 12500 6 = "0.0125"
    ∧ ("0.012" : String) ≠ "0.0125" := by
  refine ⟨by norm_num, by with_unfolding_all decide, by decide, by norm_num,
    by decide, by decide⟩

/-- C1 amended: for every amount string accepted by `ethers.parseUnits` at
the currency's decimals (18 for ETH, 6 otherwise) with a nonnegative value,
and every fee percentage in `[0, 100]` that is a whole number of basis
points (`percentage * 100 ∈ ℕ`), `calculateTotalCost` returns
`fee = ⌊amount × percentage / 100⌋` in minor units and
`total = amount + fee`, each formatted at the currency's decimals.  (For a
percentage with a fractional basis-point part the code instead applies
`Math.floor (percentage * 100)` basis points, as the counterexample
shows.) -/
theorem claim_C1_amended (p : ℚ) (amount currency : String) (a : Int) (n : ℕ)
    (_hp1 : p ≤ 100) (hbp : p * 100 = (n : ℚ))
    (hparse : parseUnits amount (if currency = "ETH" then 18 else 6) = some a)
    (ha : 0 ≤ a) :
    calculateTotalCost p amount currency
      = some { amount := formatUnits a (if currency = "ETH" then 18 else 6),
               fee := formatUnits ⌊(a : ℚ) * p / 100⌋
                        (if currency = "ETH" then 18 else 6),
               total := formatUnits (a + ⌊(a : ℚ) * p / 100⌋)
                          (if currency = "ETH" then 18 else 6) } := by
  have h100 : ((100 : ℚ)) ≠ 0 := by norm_num
  have hfloor : ⌊p * 100⌋ = (n : Int) := by
    rw [hbp]
    exact Int.floor_natCast n
  have hp : p = (n : ℚ) / 100 := (eq_div_iff h100).mpr hbp
  have hfee : (a * ⌊p * 100⌋).tdiv 10000 = ⌊(a : ℚ) * p / 100⌋ := by
    rw [hfloor]
    have h1 : (a : ℚ) * p / 100 = ((a * (n : Int) : Int) : ℚ) / ((10000 : ℕ) : ℚ) := by
      rw [hp]
      push_cast
      ring
    rw [h1, Rat.floor_intCast_div_natCast]
    exact Int.tdiv_eq_ediv (mul_nonneg ha (Int.natCast_nonneg n)) (by norm_num)
  simp only [calculateTotalCost, hparse]
  rw [hfee]

/-- Witness for the amended C1 at percentage 2.5 (250 basis points) on
amount `"3.5"` USDC. -/
theorem claim_C1_witness :
    calculateTotalCost (2.5 : ℚ) "3.5" "USDC"
      = some { amount := "3.5", fee := "0.0875", total := "3.5875" } := by
  have h := claim_C1_amended (2.5 : ℚ) "3.5" "USDC" 3500000 250
    (by norm_num) (by norm_num) (by decide) (by decide)
  rw [h]
  with_unfolding_all decide

/-- Appending to a fixed prefix is injective (used for the toy signature
scheme). -/
theorem append_left_cancel_str {pre m m' : String} (h : pre ++ m = pre ++ m') :
    m = m' := by
  have hd := congrArg String.data h
  simp only [String.data_append, List.append_cancel_left_eq] at hd
  exact String.ext hd

/-- The toy scheme recovers the signing key's address over the signed
message. -/
theorem toyCrypto_verify_sign (k : Bool) (msg : String) :
    toyCrypto.verifyMessage msg (toyCrypto.signMessage k msg)
      = some (toyCrypto.addressOf k) := by
  cases k
  · simp [toyCrypto]
  · have hne : ("B:" ++ msg) ≠ ("A:" ++ msg) := by
      intro hcontra
      have hd := congrArg String.data hcontra
      simp [String.data_append] at hd
    simp [toyCrypto, hne]

/-- The toy scheme binds a signature to its message: one signature cannot
recover (case-insensitively) the same address over two different
messages. -/
theorem toyCrypto_binding (msg msg' sig a a' : String)
    (h1 : toyCrypto.verifyMessage msg sig = some a)
    (h2 : toyCrypto.verifyMessage msg' sig = some a')
    (hne : msg ≠ msg') : jsToLowerCase a ≠ jsToLowerCase a' := by
  unfold toyCrypto at h1 h2
  simp only at h1 h2
  by_cases cA : sig = "A:" ++ msg
  · rw [if_pos cA] at h1
    obtain rfl : "0xAAAA" = a := Option.some.inj h1
    by_cases cA' : sig = "A:" ++ msg'
    · exact absurd (append_left_cancel_str (cA.symm.trans cA')) hne
    · by_cases cB' : sig = "B:" ++ msg'
      · rw [if_neg cA', if_pos cB'] at h2
        obtain rfl : "0xBBBB" = a' := Option.some.inj h2
        decide
      · rw [if_neg cA', if_neg cB'] at h2
        exact absurd h2 (by simp)
  · by_cases cB : sig = "B:" ++ msg
    · rw [if_neg cA, if_pos cB] at h1
      obtain rfl : "0xBBBB" = a := Option.some.inj h1
      by_cases cA' : sig = "A:" ++ msg'
      · rw [if_pos cA'] at h2
        obtain rfl : "0xAAAA" = a' := Option.some.inj h2
        decide
      · by_cases cB' : sig = "B:" ++ msg'
        · exact absurd (append_left_cancel_str (cB.symm.trans cB')) hne
        · rw [if_neg cA', if_neg cB'] at h2
          exact absurd h2 (by simp)
    · rw [if_neg cA, if_neg cB] at h1
      exact absurd h1 (by simp)

set_option maxRecDepth 8000 in
/-- C2 as stated is false: the signed message interpolates only
`paymentId`, `from`, `to`, `amount`, `currency` and `txHash`, so altering
the `timestamp` field after signing leaves `verifyReceipt` returning
`true`, not `false`. -/
theorem claim_C2_counterexample :
    verifyReceipt toyCrypto sampleSignedReceipt = true
    ∧ alteredTimestampReceipt.timestamp ≠ sampleSignedReceipt.timestamp
    ∧ verifyReceipt toyCrypto alteredTimestampReceipt = true := by
  refine ⟨by with_unfolding_all decide, by decide, by with_unfolding_all decide⟩

/-- C2 amended: for a signature scheme whose recovery is correct
(`verify (sign key msg) msg = addressOf key`) and message-binding up to
case-insensitive address equality, and a well-formed payment whose `from`
is the signer's address: the receipt round-trip
`verifyReceipt (signReceipt (createReceipt payment))` returns `true`; it
returns `false` for any post-signature alteration that changes the signed
message while keeping `from` (i.e. any change to `paymentId`, `to`,
`amount`, `currency` or `txHash`); and it returns `false` when the receipt
was signed by a key whose address differs case-insensitively from the
claimed `from`.  (Alterations to `timestamp` are not detected, per the
counterexample.) -/
theorem claim_C2_amended {Key : Type} (crypto : EthCrypto Key) (key : Key)
    (payment : X402Payment)
    (hsign : ∀ msg, crypto.verifyMessage msg (crypto.signMessage key msg)
        = some (crypto.addressOf key))
    (hbind : ∀ msg msg' sig a a', crypto.verifyMessage msg sig = some a →
        crypto.verifyMessage msg' sig = some a' → msg ≠ msg' →
        jsToLowerCase a ≠ jsToLowerCase a')
    (hfrom : payment.from_ = crypto.addressOf key) :
    verifyReceipt crypto (signReceipt crypto key (createReceipt crypto payment))
        = true
    ∧ (∀ r' : PaymentReceipt,
        r'.signature
            = (signReceipt crypto key (createReceipt crypto payment)).signature →
        r'.from_ = payment.from_ →
        receiptMessage r' ≠ receiptMessage (createReceipt crypto payment) →
        verifyReceipt crypto r' = false)
    ∧ (∀ key' : Key,
        jsToLowerCase (crypto.addressOf key')
            ≠ jsToLowerCase (crypto.addressOf key) →
        (∀ msg, crypto.verifyMessage msg (crypto.signMessage key' msg)
            = some (crypto.addressOf key')) →
        verifyReceipt crypto
          (signReceipt crypto key' (createReceipt crypto payment)) = false) := by
  have hmsg : receiptMessage (signReceipt crypto key (createReceipt crypto payment))
      = receiptMessage (createReceipt crypto payment) := rfl
  have hs : (signReceipt crypto key (createReceipt crypto payment)).signature
      = crypto.signMessage key (receiptMessage (createReceipt crypto payment)) := rfl
  have hRfrom : (createReceipt crypto payment).from_ = payment.from_ := rfl
  refine ⟨?_, ?_, ?_⟩
  · simp only [verifyReceipt, hmsg, hs, hsign]
    rw [show (signReceipt crypto key (createReceipt crypto payment)).from_
        = payment.from_ from rfl, hfrom]
    exact beq_self_eq_true _
  · intro r' hsig hfr hne
    have h2 : crypto.verifyMessage (receiptMessage (createReceipt crypto payment))
        r'.signature = some (crypto.addressOf key) := by
      rw [hsig]
      exact hsign _
    rcases h : crypto.verifyMessage (receiptMessage r') r'.signature with _ | recovered
    · simp only [verifyReceipt, h]
    · simp only [verifyReceipt, h]
      rw [hfr, hfrom]
      exact beq_eq_false_iff_ne.mpr (hbind _ _ _ _ _ h h2 hne)
  · intro key' hne hsign'
    have hmsg' : receiptMessage (signReceipt crypto key' (createReceipt crypto payment))
        = receiptMessage (createReceipt crypto payment) := rfl
    have hs' : (signReceipt crypto key' (createReceipt crypto payment)).signature
        = crypto.signMessage key' (receiptMessage (createReceipt crypto payment)) := rfl
    simp only [verifyReceipt, hmsg', hs', hsign']
    rw [show (signReceipt crypto key' (createReceipt crypto payment)).from_
        = payment.from_ from rfl, hfrom]
    exact beq_eq_false_iff_ne.mpr hne

set_option maxRecDepth 8000 in
/-- Witness for the amended C2 under the toy scheme: the round-trip
verifies, an `amount`-altered receipt fails, and a receipt signed by the
other key (`0xBBBB` instead of the claimed `0xAAAA`) fails. -/
theorem claim_C2_witness :
    verifyReceipt toyCrypto sampleSignedReceipt = true
    ∧ verifyReceipt toyCrypto alteredAmountReceipt = false
    ∧ verifyReceipt toyCrypto
        (signReceipt toyCrypto true (createReceipt toyCrypto samplePayment)) = false := by
  obtain ⟨h1, h2, h3⟩ := claim_C2_amended toyCrypto false samplePayment
    (toyCrypto_verify_sign false) toyCrypto_binding rfl
  exact ⟨h1,
    h2 alteredAmountReceipt rfl rfl (by with_unfolding_all decide),
    h3 true (by decide) (fun msg => toyCrypto_verify_sign true msg)⟩

end ChaosChain
